import Mathlib

/-!
Shallow embedding of the gradosphera-vesting-unlocker client
(`src/components/BalanceDisplay.tsx` and the top-level `App` component).

The component is modelled as explicit state records plus step functions.
External side effects (network fetches, wallet-SDK calls, QR generation,
timer arming) are recorded as an explicit effect list returned alongside
the new state, so that claims about "which calls happen" become claims
about that list.  Results of external asynchronous calls (the balance
fetch, `sendTransaction`, the QR encoder) are passed in as parameters,
since the embedding is of the client logic, not of the network.
-/

/-- `WalletBalance` from `src/contracts/types` as used by the component:
four non-negative arbitrary-precision integers (TS `bigint`). -/
structure WalletBalance where
  availableToWithdraw : Nat
  stillLocked : Nat
  totalUserDeposit : Nat
  totalUserDepositAndReward : Nat
deriving DecidableEq, Repr

/-- The React state of `BalanceDisplay` (its six `useState` hooks). -/
structure BDState where
  balance : Option WalletBalance
  loading : Bool
  refreshing : Bool
  error : Option String
  showWithdrawModal : Bool
  qrCode : String
deriving DecidableEq, Repr

/-- Modelled from the spec: `LOCKER_ADDRESSES.mainnet` lives in
`src/utils/constants.ts`, which is not under `src/`; the spec only
requires two distinct network-specific locker contract addresses. -/
def LOCKER_ADDRESSES_mainnet : String := "locker-contract-mainnet"

/-- Modelled from the spec: `LOCKER_ADDRESSES.testnet` lives in
`src/utils/constants.ts`, which is not under `src/`. -/
def LOCKER_ADDRESSES_testnet : String := "locker-contract-testnet"

/-- Modelled from the spec: `WITHDRAW_AMOUNT` lives in
`src/utils/constants.ts`, which is not under `src/`; the spec calls it a
fixed withdrawal trigger amount and the manual dialog displays "1 TON",
i.e. 10^9 nanoton — we use 10^9. -/
def WITHDRAW_AMOUNT : Nat := 1000000000

/-- Modelled from the spec: `formatContractAddress` lives in
`src/utils/helpers.ts`, which is not under `src/`.  The spec requires the
destination contract address to be rendered in the bounceable encoding of
the active network, the two networks encoding the same address
differently (TON friendly-format tags: `EQ` mainnet, `kQ` testnet). -/
def formatContractAddress (addr : String) (isTestnet : Bool) : String :=
  (if isTestnet then "kQ" else "EQ") ++ addr

/-- `lockerAddress` as computed in `BalanceDisplay` (line 26):
`isTestnet ? LOCKER_ADDRESSES.testnet : LOCKER_ADDRESSES.mainnet`. -/
def lockerAddress (isTestnet : Bool) : String :=
  if isTestnet then LOCKER_ADDRESSES_testnet else LOCKER_ADDRESSES_mainnet

/-- `formattedLockerAddress` as computed in `BalanceDisplay` (line 28). -/
def formattedLockerAddress (isTestnet : Bool) : String :=
  formatContractAddress (lockerAddress isTestnet) isTestnet

/-- Modelled from the spec: `generateWithdrawDeepLink` lives in
`src/utils/helpers.ts`, which is not under `src/`.  The spec describes a
URI carrying the network-encoded destination contract address, the fixed
withdrawal amount and the comment `w`, with a network selector. -/
def generateWithdrawDeepLink (addr : String) (isTestnet : Bool) : String :=
  "ton://transfer/" ++ formatContractAddress addr isTestnet ++
    "?amount=" ++ toString WITHDRAW_AMOUNT ++ "&text=w" ++
    (if isTestnet then "&testnet=true" else "")

/-- Big-endian bit string of `n` in `w` bits, the layout `storeUint n w`
of `@ton/core` writes into a cell. -/
def natToBitsBE (n w : Nat) : List Bool :=
  (List.range w).map (fun i => n / 2 ^ (w - 1 - i) % 2 == 1)

/-- Bit content appended by `storeUint` of `@ton/core`. -/
def storeUint (n w : Nat) : List Bool := natToBitsBE n w

/-- Bit content appended by `storeStringTail` of `@ton/core`: the bytes
of the string, eight big-endian bits each. -/
def storeStringTail (s : String) : List Bool :=
  s.data.flatMap (fun c => natToBitsBE c.toNat 8)

/-- One message of a TON Connect `sendTransaction` request
(`BalanceDisplay` lines 86-90); the payload cell is kept as its bit
content rather than its base64 BoC serialisation. -/
structure TxMessage where
  address : String
  amount : String
  payload : List Bool
deriving DecidableEq, Repr

/-- A TON Connect `sendTransaction` request (`BalanceDisplay` lines 84-93). -/
structure TxRequest where
  messages : List TxMessage
  validUntil : Nat
deriving DecidableEq, Repr

/-- External calls the component issues, recorded as an effect trace. -/
inductive Effect where
  | fetchBalance (isTestnet : Bool) (locker user : String)
  | generateQR (link : String)
  | sendTx (req : TxRequest)
  | scheduleReload (delayMs : Nat)
  | sdkDisconnect
  | parentDisconnect
deriving DecidableEq, Repr

/-- True exactly on `scheduleReload` effects (the delayed re-polls). -/
def Effect.isReload : Effect → Bool
  | .scheduleReload _ => true
  | _ => false

/-- First half of `loadBalance` (`BalanceDisplay` lines 45-56), up to the
`await`: chooses the full-loading or refreshing flag, clears the error,
and issues the single balance fetch
(`new TonApiClient(isTestnet)).getWalletBalance(lockerAddress, address)`. -/
def loadBalanceStart (isTestnet : Bool) (address : String) (s : BDState) :
    BDState × List Effect :=
  let s1 := if s.balance.isNone then { s with loading := true }
            else { s with refreshing := true }
  ({ s1 with error := none },
   [Effect.fetchBalance isTestnet (lockerAddress isTestnet) address])

/-- Second half of `loadBalance` (`BalanceDisplay` lines 57-64): the
`try`/`catch`/`finally` resuming after the fetch settles. -/
def loadBalanceFinish (s : BDState) (result : Except String WalletBalance) :
    BDState :=
  let s2 := match result with
    | .ok balanceData => { s with balance := some balanceData }
    | .error _ => { s with error := some "Failed to load balance. Please try again." }
  { s2 with loading := false, refreshing := false }

/-- Whole `loadBalance` run: start, then resume with the fetch result. -/
def loadBalance (isTestnet : Bool) (address : String) (s : BDState)
    (result : Except String WalletBalance) : BDState × List Effect :=
  let (s1, effs) := loadBalanceStart isTestnet address s
  (loadBalanceFinish s1 result, effs)

/-- The `sendTransaction` request built in the Connected branch of
`handleWithdraw` (`BalanceDisplay` lines 79-93): a single message to the
network-formatted locker address, carrying `WITHDRAW_AMOUNT` and the cell
`beginCell().storeUint(0, 32).storeStringTail('w').endCell()`, valid
until `Date.now() + 5 * 60 * 1000`. -/
def withdrawRequest (isTestnet : Bool) (now : Nat) : TxRequest :=
  { messages := [{ address := formattedLockerAddress isTestnet,
                   amount := toString WITHDRAW_AMOUNT,
                   payload := storeUint 0 32 ++ storeStringTail "w" }],
    validUntil := now + 5 * 60 * 1000 }

/-- `handleWithdraw` (`BalanceDisplay` lines 67-102).  `qrResult` is the
data URI the external QR encoder returns for the deep link; `sendResult`
is how the wallet SDK settles `sendTransaction` (`.error` covers user
rejection).  Returns the new state and the trace of external calls. -/
def handleWithdraw (isManual isTestnet : Bool) (now : Nat) (qrResult : String)
    (sendResult : Except String Unit) (s : BDState) : BDState × List Effect :=
  match s.balance with
  | none => (s, [])
  | some balance =>
    if balance.availableToWithdraw = 0 then (s, [])
    else if isManual then
      let deepLink := generateWithdrawDeepLink (lockerAddress isTestnet) isTestnet
      ({ s with qrCode := qrResult, showWithdrawModal := true },
       [Effect.generateQR deepLink])
    else
      match sendResult with
      | .ok _ =>
          (s, [Effect.sendTx (withdrawRequest isTestnet now),
               Effect.scheduleReload 5000])
      | .error _ =>
          ({ s with error := some "Transaction failed. Please try again." },
           [Effect.sendTx (withdrawRequest isTestnet now)])

/-- `handleDisconnect` (`BalanceDisplay` lines 104-109): tear down the
wallet session only when not manual and the SDK reports `connected`,
then bubble to the parent callback. -/
def handleDisconnect (isManual sdkConnected : Bool) : List Effect :=
  (if !isManual && sdkConnected then [Effect.sdkDisconnect] else []) ++
    [Effect.parentDisconnect]

/-! ### The polling effect (`BalanceDisplay` lines 30-43)

`useEffect(() => { loadBalance(); const intervalId = setInterval(() => {
if (!showWithdrawModal) loadBalance(); }, 30000); return () =>
clearInterval(intervalId); }, [address, isTestnet, showWithdrawModal])`.

React semantics: the effect body runs on mount and again whenever one of
the three dependencies changes (after the cleanup cancels the previous
interval).  The interval callback reads the `showWithdrawModal` value
captured at the render that armed it.  We model the component as the
current dependency triple plus the captured flag, and count the
`loadBalance` invocations each event contributes. -/

/-- The dependency triple of the polling effect. -/
structure PollEnv where
  address : String
  isTestnet : Bool
  showWithdrawModal : Bool
deriving DecidableEq, Repr

/-- Poller state: current dependencies, plus the `showWithdrawModal`
value captured by the closure of the currently armed interval. -/
structure PollerState where
  env : PollEnv
  capturedModal : Bool
deriving DecidableEq, Repr

/-- Events acting on the poller: a dependency write (only re-runs the
effect when the value actually changes, per React state semantics) and
the 30-second timer firing. -/
inductive PollEvent where
  | setModal (b : Bool)
  | setAddress (a : String)
  | setTestnet (t : Bool)
  | tick30
deriving DecidableEq, Repr

/-- A run of the effect body: the unconditional `loadBalance()` (one
fetch) and a fresh interval capturing the current `showWithdrawModal`. -/
def runPollEffect (e : PollEnv) : PollerState × Nat :=
  (⟨e, e.showWithdrawModal⟩, 1)

/-- Mounting the component runs the effect once. -/
def mountPoller (e : PollEnv) : PollerState × Nat := runPollEffect e

/-- One event step; the `Nat` is how many `loadBalance` fetches the event
causes.  A changed dependency re-runs the effect (immediate fetch, fresh
interval); a tick fetches only if the captured modal flag is `false`. -/
def pollStep (s : PollerState) (ev : PollEvent) : PollerState × Nat :=
  match ev with
  | .setModal b =>
      if b = s.env.showWithdrawModal then (s, 0)
      else runPollEffect { s.env with showWithdrawModal := b }
  | .setAddress a =>
      if a = s.env.address then (s, 0)
      else runPollEffect { s.env with address := a }
  | .setTestnet t =>
      if t = s.env.isTestnet then (s, 0)
      else runPollEffect { s.env with isTestnet := t }
  | .tick30 => (s, if s.capturedModal then 0 else 1)

/-- The interval closure is never stale: its captured flag is the current
`showWithdrawModal`.  Holds on mount and is preserved by every step
because the effect re-runs on each dependency change. -/
def pollerFresh (s : PollerState) : Prop :=
  s.capturedModal = s.env.showWithdrawModal

instance (s : PollerState) : Decidable (pollerFresh s) := by
  unfold pollerFresh; infer_instance

/-! ### The top-level `AppContent` component (the unnamed source file) -/

/-- The React state of `AppContent`. -/
structure AppState where
  manualAddress : Option String
  isManual : Bool
  isValidatingTonConnect : Bool
  tonConnectError : Option String
deriving DecidableEq, Repr

/-- Error message when `validateUserAddress` resolves `false`. -/
def msgNoDeposits : String := "В этом кошельке нет депозитов"

/-- Error message when the `validateUserAddress` call itself fails. -/
def msgValidateFailed : String := "Не удалось подтвердить подлинность кошелька"

/-- The validation `useEffect` of `AppContent` (lines 32-56), run to
completion for a given settled result of
`billsService.validateUserAddress(tonAddress)`.  With no connected
address the effect only clears the error and performs no call. -/
def validationEffect (tonAddress : Option String)
    (result : Except String Bool) (s : AppState) : AppState :=
  match tonAddress with
  | some _ =>
      let s1 := { s with isValidatingTonConnect := true, tonConnectError := none }
      let s2 := match result with
        | .ok true => { s1 with isManual := false, manualAddress := none }
        | .ok false => { s1 with tonConnectError := some msgNoDeposits }
        | .error _ => { s1 with tonConnectError := some msgValidateFailed }
      { s2 with isValidatingTonConnect := false }
  | none => { s with tonConnectError := none }

/-- Which screen `AppContent` renders (lines 58-113). -/
inductive AppView where
  | validating
  | walletNotFound (msg : String)
  | connector
  | balanceDisplay (address : String) (isManual : Bool)
deriving DecidableEq, Repr

/-- The render logic of `AppContent`: the validating spinner, else the
"Кошелек не найден" screen when a connected address has an error, else
the connector or the balance view for `tonAddress || manualAddress`. -/
def renderApp (tonAddress : Option String) (s : AppState) : AppView :=
  if s.isValidatingTonConnect then .validating
  else
    match tonAddress, s.tonConnectError with
    | some _, some msg => .walletNotFound msg
    | _, _ =>
        match tonAddress.or s.manualAddress with
        | none => .connector
        | some a => .balanceDisplay a s.isManual

/-- Recogniser for the dedicated "Кошелек не найден" screen. -/
def AppView.isWalletNotFound : AppView → Bool
  | .walletNotFound _ => true
  | _ => false

/-- The Back button of the "Кошелек не найден" screen (lines 83-93):
disconnect the SDK session if connected, clear the error. -/
def errorViewBack (sdkConnected : Bool) (s : AppState) :
    AppState × List Effect :=
  ({ s with tonConnectError := none },
   if sdkConnected then [Effect.sdkDisconnect] else [])

/-- `handleDisconnect` of `AppContent` (lines 25-29): the parent callback
`BalanceDisplay` bubbles to; clears the local address state. -/
def appHandleDisconnect (s : AppState) : AppState :=
  { s with manualAddress := none, isManual := false, tonConnectError := none }

/-! ## Theorems -/

/-- Claim C2: a fetch that fails leaves `lastBalance` unchanged, sets the
non-null user-facing error message and clears the loading and refreshing
flags; a fetch that succeeds replaces the balance wholesale with the
fetched value and leaves the error null. -/
theorem C2_fetch_failure_keeps_balance_success_replaces
    (it : Bool) (ua : String) (s : BDState) :
    (∀ e : String,
      (loadBalance it ua s (.error e)).1.balance = s.balance
        ∧ (loadBalance it ua s (.error e)).1.error
            = some "Failed to load balance. Please try again."
        ∧ (loadBalance it ua s (.error e)).1.loading = false
        ∧ (loadBalance it ua s (.error e)).1.refreshing = false)
    ∧ (∀ b : WalletBalance,
        (loadBalance it ua s (.ok b)).1.balance = some b
          ∧ (loadBalance it ua s (.ok b)).1.error = none
          ∧ (loadBalance it ua s (.ok b)).1.loading = false
          ∧ (loadBalance it ua s (.ok b)).1.refreshing = false) := by
  constructor <;> intro x <;>
    simp only [loadBalance, loadBalanceStart, loadBalanceFinish] <;>
    by_cases h : s.balance.isNone <;> simp [h]

/-- Claim C10: every run of `loadBalance` clears the error to null before
the fetch is issued, so a previously shown fetch error disappears for the
duration of the in-flight call; on failure the error is set anew only
after the fetch settles. -/
theorem C10_error_cleared_before_fetch (it : Bool) (ua : String) (s : BDState) :
    (loadBalanceStart it ua s).1.error = none
    ∧ (∀ e : String,
        (loadBalanceFinish (loadBalanceStart it ua s).1 (.error e)).error
          = some "Failed to load balance. Please try again.") := by
  exact ⟨by simp only [loadBalanceStart],
    fun e => by simp only [loadBalanceStart, loadBalanceFinish]⟩

/-- Claim C7: each run of `loadBalance` issues exactly one network fetch,
and before fetching enters exactly one of the two pre-states: the
full-loading state when no balance is cached, the refreshing state
otherwise — in either case leaving the cached balance untouched while
the call is in flight. -/
theorem C7_one_fetch_loading_or_refreshing (it : Bool) (ua : String) (s : BDState) :
    (loadBalanceStart it ua s).2 = [Effect.fetchBalance it (lockerAddress it) ua]
    ∧ (loadBalanceStart it ua s).1.balance = s.balance
    ∧ (if s.balance.isNone
       then (loadBalanceStart it ua s).1.loading = true
              ∧ (loadBalanceStart it ua s).1.refreshing = s.refreshing
       else (loadBalanceStart it ua s).1.refreshing = true
              ∧ (loadBalanceStart it ua s).1.loading = s.loading) := by
  simp only [loadBalanceStart]
  by_cases h : s.balance.isNone <;> simp [h]

/-- Claim C3: when no balance is cached or the available amount is zero,
the withdraw action is a complete no-op — no external call of any kind
and no state change. -/
theorem C3_withdraw_guard_noop (im it : Bool) (now : Nat) (qr : String)
    (r : Except String Unit) (s : BDState)
    (h : s.balance = none
      ∨ ∃ b, s.balance = some b ∧ b.availableToWithdraw = 0) :
    handleWithdraw im it now qr r s = (s, []) := by
  rcases h with h | ⟨b, hb, h0⟩
  · simp [handleWithdraw, h]
  · simp [handleWithdraw, hb, h0]

/-- Witness for C3 at a state with a cached balance of zero available. -/
theorem C3_withdraw_guard_noop_witness :
    handleWithdraw false false 0 "" (.ok ())
        ⟨some ⟨0, 4, 4, 5⟩, false, false, none, false, ""⟩
      = (⟨some ⟨0, 4, 4, 5⟩, false, false, none, false, ""⟩, []) :=
  C3_withdraw_guard_noop false false 0 "" (.ok ()) _
    (Or.inr ⟨⟨0, 4, 4, 5⟩, rfl, rfl⟩)

/-- Claim C4: in Connected mode past the guard, a successful
`sendTransaction` schedules exactly one delayed re-poll, 5000 ms later,
and changes no state; a failed `sendTransaction` (user rejection
included) schedules zero re-polls, sets the recoverable error message,
and otherwise leaves the state as it was (Idle, no automatic retry). -/
theorem C4_repoll_once_on_success_none_on_failure
    (it : Bool) (now : Nat) (qr : String) (s : BDState) (b : WalletBalance)
    (hb : s.balance = some b) (h0 : b.availableToWithdraw ≠ 0) :
    (∀ u : Unit,
      (handleWithdraw false it now qr (.ok u) s).2.filter Effect.isReload
          = [Effect.scheduleReload 5000]
        ∧ (handleWithdraw false it now qr (.ok u) s).1 = s)
    ∧ (∀ e : String,
        (handleWithdraw false it now qr (.error e) s).2.filter Effect.isReload
            = []
          ∧ (handleWithdraw false it now qr (.error e) s).1
              = { s with error := some "Transaction failed. Please try again." }) := by
  constructor <;> intro x <;>
    simp [handleWithdraw, hb, h0, Effect.isReload, List.filter]

/-- Witness for C4: Connected-mode success with a positive balance. -/
theorem C4_repoll_witness :
    (handleWithdraw false false 0 "" (.ok ())
        ⟨some ⟨7, 1, 8, 9⟩, false, false, none, false, ""⟩).2.filter
          Effect.isReload
      = [Effect.scheduleReload 5000] :=
  ((C4_repoll_once_on_success_none_on_failure false 0 ""
      ⟨some ⟨7, 1, 8, 9⟩, false, false, none, false, ""⟩ ⟨7, 1, 8, 9⟩
      rfl (by decide)).1 ()).1

/-- Claim C5: in Connected mode the withdraw action submits exactly one
message: its payload cell is a 32-bit zero op code followed by the eight
bits of the character `w`, its amount is the fixed withdrawal amount
constant, its destination is the network-formatted locker address, and
the request expires 5 * 60 * 1000 ms after the current time. -/
theorem C5_connected_tx_shape
    (it : Bool) (now : Nat) (qr : String) (r : Except String Unit)
    (s : BDState) (b : WalletBalance) (hb : s.balance = some b)
    (h0 : b.availableToWithdraw ≠ 0) :
    (handleWithdraw false it now qr r s).2.head?
        = some (Effect.sendTx (withdrawRequest it now))
    ∧ withdrawRequest it now
        = { messages := [{ address := formatContractAddress (lockerAddress it) it,
                           amount := toString WITHDRAW_AMOUNT,
                           payload := List.replicate 32 false
                             ++ [false, true, true, true, false, true, true, true] }],
            validUntil := now + 5 * 60 * 1000 } := by
  constructor
  · cases r <;> simp [handleWithdraw, hb, h0]
  · simp only [withdrawRequest, formattedLockerAddress]
    congr 1

/-- Witness for C5 on mainnet with a positive balance at time 0. -/
theorem C5_connected_tx_shape_witness :
    (handleWithdraw false false 0 "" (.ok ())
        ⟨some ⟨7, 1, 8, 9⟩, false, false, none, false, ""⟩).2.head?
      = some (Effect.sendTx (withdrawRequest false 0)) :=
  (C5_connected_tx_shape false 0 "" (.ok ())
      ⟨some ⟨7, 1, 8, 9⟩, false, false, none, false, ""⟩ ⟨7, 1, 8, 9⟩
      rfl (by decide)).1

/-- Claim C6: both withdrawal paths derive the destination from the
active network flag — the testnet locker address and testnet encoding
when `isTestnet` is set, the mainnet ones otherwise — and the two
networks produce different destinations (nothing is hard-coded to one
network). -/
theorem C6_destination_follows_network
    (now : Nat) (qr : String) (r : Except String Unit)
    (s : BDState) (b : WalletBalance) (hb : s.balance = some b)
    (h0 : b.availableToWithdraw ≠ 0) :
    (∀ it : Bool,
      (withdrawRequest it now).messages.map TxMessage.address
          = [formatContractAddress (lockerAddress it) it]
        ∧ (handleWithdraw true it now qr r s).2
            = [Effect.generateQR (generateWithdrawDeepLink (lockerAddress it) it)])
    ∧ lockerAddress true = LOCKER_ADDRESSES_testnet
    ∧ lockerAddress false = LOCKER_ADDRESSES_mainnet
    ∧ (formattedLockerAddress true == formattedLockerAddress false) = false
    ∧ (generateWithdrawDeepLink (lockerAddress true) true
        == generateWithdrawDeepLink (lockerAddress false) false) = false := by
  refine ⟨fun it => ⟨rfl, ?_⟩, rfl, rfl, by decide, by decide⟩
  simp [handleWithdraw, hb, h0]

/-- Witness for C6 with a cached positive balance on testnet. -/
theorem C6_destination_follows_network_witness :
    (handleWithdraw true true 0 "qr" (.ok ())
        ⟨some ⟨2, 1, 3, 3⟩, false, false, none, false, ""⟩).2
      = [Effect.generateQR (generateWithdrawDeepLink (lockerAddress true) true)] :=
  ((C6_destination_follows_network 0 "qr" (.ok ())
      ⟨some ⟨2, 1, 3, 3⟩, false, false, none, false, ""⟩ ⟨2, 1, 3, 3⟩
      rfl (by decide)).1 true).2

/-- Claim C9: disconnecting in Connected mode with an active SDK session
tears the session down before bubbling to the parent; with no active
session, and always in Manual mode, only the parent callback runs — and
the parent callback clears the local address state. -/
theorem C9_disconnect_teardown (s : AppState) :
    handleDisconnect false true = [Effect.sdkDisconnect, Effect.parentDisconnect]
    ∧ handleDisconnect false false = [Effect.parentDisconnect]
    ∧ (∀ c : Bool, handleDisconnect true c = [Effect.parentDisconnect])
    ∧ (appHandleDisconnect s).manualAddress = none
    ∧ (appHandleDisconnect s).isManual = false
    ∧ (appHandleDisconnect s).tonConnectError = none := by
  exact ⟨rfl, rfl, fun c => rfl, rfl, rfl, rfl⟩

/-- Claim C1 counterexample: from a state with the withdrawal dialog
open (and the interval closure fresh), closing the dialog changes the
polling effect's dependency triple, so the effect re-runs and calls
`loadBalance()` immediately — one fetch caused by the visibility change
itself, which the claim says must not happen. -/
theorem C1_close_dialog_immediate_fetch_counterexample :
    (pollStep ⟨⟨"wallet", false, true⟩, true⟩ (PollEvent.setModal false)).2 = 1 := by
  decide

/-- Claim C1 amended: while the dialog is open no 30-second tick fetches
(the interval closure's captured flag is fresh on mount and stays fresh
under every event); but because `showWithdrawModal` is a dependency of
the polling effect, every visibility change — closing as well as opening
the dialog — re-runs the effect, which issues one immediate fetch and
re-arms the 30-second interval. -/
theorem C1_tick_guard_and_rerun_fetch :
    (∀ s : PollerState, pollerFresh s → s.env.showWithdrawModal = true →
      (pollStep s PollEvent.tick30).2 = 0)
    ∧ (∀ e : PollEnv, pollerFresh (mountPoller e).1)
    ∧ (∀ s : PollerState, pollerFresh s →
        ∀ ev : PollEvent, pollerFresh (pollStep s ev).1)
    ∧ (∀ s : PollerState, s.env.showWithdrawModal = true →
        (pollStep s (PollEvent.setModal false)).2 = 1)
    ∧ (∀ s : PollerState, s.env.showWithdrawModal = false →
        (pollStep s (PollEvent.setModal true)).2 = 1) := by
  refine ⟨fun s h1 h2 => ?_, fun e => rfl, fun s h ev => ?_, fun s h => ?_,
    fun s h => ?_⟩
  · show (if s.capturedModal then 0 else 1) = 0
    rw [pollerFresh] at h1
    rw [h1, h2]
    rfl
  · cases ev <;>
      simp only [pollStep, runPollEffect, pollerFresh] at h ⊢ <;>
      first
        | exact h
        | (split <;> simp [h])
  · simp [pollStep, h, runPollEffect]
  · simp [pollStep, h, runPollEffect]

/-- Witness for the amended C1: with the dialog open and a fresh
interval closure, a tick contributes no fetch. -/
theorem C1_tick_guard_witness :
    (pollStep ⟨⟨"wallet", false, true⟩, true⟩ PollEvent.tick30).2 = 0 :=
  C1_tick_guard_and_rerun_fetch.1 ⟨⟨"wallet", false, true⟩, true⟩ rfl rfl

/-- Claim C8 counterexample: starting from the initial app state with a
connected address, a transient (thrown) validation failure lands the
user on the same dedicated "wallet not found" screen as a validation
that resolves `false` — the route is not distinct. -/
theorem C8_transient_failure_same_route_counterexample :
    (renderApp (some "A")
        (validationEffect (some "A") (.error "network down")
          ⟨none, false, false, none⟩)).isWalletNotFound = true
    ∧ (renderApp (some "A")
        (validationEffect (some "A") (.ok false)
          ⟨none, false, false, none⟩)).isWalletNotFound = true := by
  decide

/-- Claim C8 amended: a transient validation failure sets a different
message than validation returning `false`, but both are rendered through
the same dedicated "wallet not found" screen, whose Back button clears
the error (disconnecting the SDK session when one is active); neither
case is retried automatically. -/
theorem C8_transient_vs_invalid_routing (a e : String) (s : AppState) :
    (validationEffect (some a) (.error e) s).tonConnectError
        = some msgValidateFailed
    ∧ (validationEffect (some a) (.ok false) s).tonConnectError
        = some msgNoDeposits
    ∧ (msgValidateFailed == msgNoDeposits) = false
    ∧ renderApp (some a) (validationEffect (some a) (.error e) s)
        = AppView.walletNotFound msgValidateFailed
    ∧ renderApp (some a) (validationEffect (some a) (.ok false) s)
        = AppView.walletNotFound msgNoDeposits
    ∧ (∀ c : Bool,
        (errorViewBack c (validationEffect (some a) (.error e) s)).1.tonConnectError
          = none) := by
  refine ⟨rfl, rfl, by decide, ?_, ?_, fun c => rfl⟩ <;> rfl
